import Mathlib

/-!
Verification of the clip and image object layer of the OpenFX host support
library (HostSupport/src/ofxhClip.cpp) against its specification.

The embedding is shallow: each C++ function of ofxhClip.cpp that the claims
touch is transcribed as a Lean definition over explicit data.  C++ exceptions
(`throw Property::Exception(status)`) become `Except OfxStatus` results,
`int` indices become `Int` (they can be negative at call sites), C `double`
values are carried opaquely as rationals (no claim computes with them), and
the property bag (`Property::Set`, implemented in ofxhPropertySuite.cpp,
which is not part of the sources under verification) is modelled from the
specification's observable contract.
-/

namespace OfxClip

/-- OpenFX status codes as in the public ofxCore.h header (not among the
sources under verification; the claims depend only on these being the
distinct ABI constants). -/
abbrev OfxStatus := Nat

def kOfxStatOK : OfxStatus := 0

def kOfxStatFailed : OfxStatus := 1

def kOfxStatErrMissingHostFeature : OfxStatus := 4

def kOfxStatErrValue : OfxStatus := 11

/-- Property-key and value string constants, with the literal values of the
public OpenFX headers (ofxCore.h, ofxImageEffect.h); the claims depend only
on these being distinct string tokens. -/
def kOfxPropType : String := "OfxPropType"

def kOfxPropName : String := "OfxPropName"

def kOfxPropLabel : String := "OfxPropLabel"

def kOfxPropShortLabel : String := "OfxPropShortLabel"

def kOfxPropLongLabel : String := "OfxPropLongLabel"

def kOfxPropTime : String := "OfxPropTime"

def kOfxPropChangeReason : String := "OfxPropChangeReason"

def kOfxTypeClip : String := "OfxTypeClip"

def kOfxTypeImage : String := "OfxTypeImage"

def kOfxActionInstanceChanged : String := "OfxActionInstanceChanged"

def kOfxImageEffectPropSupportedComponents : String :=
  "OfxImageEffectPropSupportedComponents"

def kOfxImageEffectPropTemporalClipAccess : String :=
  "OfxImageEffectPropTemporalClipAccess"

def kOfxImageClipPropOptional : String := "OfxImageClipPropOptional"

def kOfxImageClipPropIsMask : String := "OfxImageClipPropIsMask"

def kOfxImageClipPropFieldExtraction : String := "OfxImageClipPropFieldExtraction"

def kOfxImageEffectPropSupportsTiles : String := "OfxImageEffectPropSupportsTiles"

def kOfxImageEffectPropPixelDepth : String := "OfxImageEffectPropPixelDepth"

def kOfxImageEffectPropComponents : String := "OfxImageEffectPropComponents"

def kOfxImageClipPropUnmappedPixelDepth : String :=
  "OfxImageClipPropUnmappedPixelDepth"

def kOfxImageClipPropUnmappedComponents : String :=
  "OfxImageClipPropUnmappedComponents"

def kOfxImageEffectPropPreMultiplication : String :=
  "OfxImageEffectPropPreMultiplication"

def kOfxImagePropPixelAspect : String := "OfxImagePropPixelAspectRatio"

def kOfxImageEffectPropFrameRate : String := "OfxImageEffectPropFrameRate"

def kOfxImageEffectPropFrameRange : String := "OfxImageEffectPropFrameRange"

def kOfxImageClipPropFieldOrder : String := "OfxImageClipPropFieldOrder"

def kOfxImageClipPropConnected : String := "OfxImageClipPropConnected"

def kOfxImageEffectPropUnmappedFrameRange : String :=
  "OfxImageEffectPropUnmappedFrameRange"

def kOfxImageEffectPropUnmappedFrameRate : String :=
  "OfxImageEffectPropUnmappedFrameRate"

def kOfxImageClipPropContinuousSamples : String :=
  "OfxImageClipPropContinuousSamples"

def kOfxImageEffectPropRenderScale : String := "OfxImageEffectPropRenderScale"

def kOfxImagePropBounds : String := "OfxImagePropBounds"

def kOfxImagePropRegionOfDefinition : String := "OfxImagePropRegionOfDefinition"

def kOfxImagePropRowBytes : String := "OfxImagePropRowBytes"

def kOfxImagePropField : String := "OfxImagePropField"

def kOfxImagePropUniqueIdentifier : String := "OfxImagePropUniqueIdentifier"

def kOfxImagePropData : String := "OfxImagePropData"

def kOfxBitDepthNone : String := "OfxBitDepthNone"

def kOfxImageComponentNone : String := "OfxImageComponentNone"

def kOfxImageComponentRGBA : String := "OfxImageComponentRGBA"

def kOfxImageComponentRGB : String := "OfxImageComponentRGB"

def kOfxImageComponentAlpha : String := "OfxImageComponentAlpha"

def kOfxImageOpaqueStr : String := "OfxImageOpaque"

def kOfxImageFieldNone : String := "OfxImageFieldNone"

def kOfxImageFieldDoubled : String := "OfxImageFieldDoubled"

/-- Modelled from the spec: `ImageEffect::Instance::isChromaticComponent`
lives in ofxhImageEffect.cpp, which is not among the sources under
verification.  Per the spec's glossary a chromatic component is "a component
identifier the host recognises as colour (RGBA, RGB, Alpha, ...)". -/
def isChromaticComponent (s : String) : Bool :=
  s == kOfxImageComponentRGBA || s == kOfxImageComponentRGB ||
    s == kOfxImageComponentAlpha

/-- The shared fall-through tail of `ClipInstance::findSupportedComp`
(ofxhClip.cpp:447-451): when no substitution rule applied, the single entry
of the supported list is returned when that list has exactly one element,
and the "none" sentinel otherwise. -/
def findSupportedCompTail (S : List String) : String :=
  match S with
  | [x] => x
  | _ => kOfxImageComponentNone

/-- `ClipInstance::findSupportedComp` (ofxhClip.cpp:416-452), as a function of
the effect's chromaticity predicate `isChrom` (the code calls
`_effectInstance->isChromaticComponent(s)`), the supported-components list
`S` (the value of the supported-components property, which
`isSupportedComponent` consults) and the requested component `s`. -/
def findSupportedComp (isChrom : String → Bool) (S : List String) (s : String) :
    String :=
  if s ∈ S then s
  else if ¬ isChrom s then s
  else if s = kOfxImageComponentRGBA then
    if kOfxImageComponentRGB ∈ S then kOfxImageComponentRGB
    else if kOfxImageComponentAlpha ∈ S then kOfxImageComponentAlpha
    else findSupportedCompTail S
  else if s = kOfxImageComponentAlpha then
    if kOfxImageComponentRGBA ∈ S then kOfxImageComponentRGBA
    else if kOfxImageComponentRGB ∈ S then kOfxImageComponentRGB
    else findSupportedCompTail S
  else findSupportedCompTail S

lemma findSupportedCompTail_mem_or_none (S : List String) :
    findSupportedCompTail S ∈ S ∨ findSupportedCompTail S = kOfxImageComponentNone := by
  match S with
  | [] => exact Or.inr rfl
  | [x] => exact Or.inl (by simp [findSupportedCompTail])
  | x :: y :: t => exact Or.inr rfl

/-- C1 counterexample: with supported list `["MyXYZ"]` and a chromatic RGBA
request (RGB and Alpha unsupported), `findSupportedComp` returns the single
entry `"MyXYZ"`, not the sentinel "none" the claim asserts. -/
theorem findSupportedComp_singleton_rgba_counterexample :
    findSupportedComp isChromaticComponent ["MyXYZ"] kOfxImageComponentRGBA
      = "MyXYZ"
    ∧ findSupportedComp isChromaticComponent ["MyXYZ"] kOfxImageComponentRGBA
      ≠ kOfxImageComponentNone := by
  constructor
  · decide
  · decide

/-- C1 (amended): for a chromatic requested component `s` that is not in the
supported list and is not resolved by the RGBA/Alpha substitution rules,
`findSupportedComp` returns the single entry of the supported list when that
list has exactly one entry and the sentinel "none" otherwise; in particular
supported `["MyXYZ"]` with request RGBA yields `"MyXYZ"`, and supported
`["MyXYZ", "MyUVW"]` with request RGBA yields "none". -/
theorem findSupportedComp_fallthrough (s : String) (S : List String)
    (hchrom : isChromaticComponent s = true)
    (hmem : s ∉ S)
    (hrgba : s = kOfxImageComponentRGBA →
      kOfxImageComponentRGB ∉ S ∧ kOfxImageComponentAlpha ∉ S)
    (halpha : s = kOfxImageComponentAlpha →
      kOfxImageComponentRGBA ∉ S ∧ kOfxImageComponentRGB ∉ S) :
    findSupportedComp isChromaticComponent S s = findSupportedCompTail S
    ∧ (∀ x, S = [x] → findSupportedCompTail S = x)
    ∧ (S.length ≠ 1 → findSupportedCompTail S = kOfxImageComponentNone)
    ∧ findSupportedComp isChromaticComponent ["MyXYZ"] kOfxImageComponentRGBA
        = "MyXYZ"
    ∧ findSupportedComp isChromaticComponent ["MyXYZ", "MyUVW"]
        kOfxImageComponentRGBA = kOfxImageComponentNone := by
  refine ⟨?_, ?_, ?_, by decide, by decide⟩
  · rw [findSupportedComp, if_neg hmem, if_neg (by simp [hchrom])]
    by_cases h1 : s = kOfxImageComponentRGBA
    · rw [if_pos h1, if_neg (hrgba h1).1, if_neg (hrgba h1).2]
    · rw [if_neg h1]
      by_cases h2 : s = kOfxImageComponentAlpha
      · rw [if_pos h2, if_neg (halpha h2).1, if_neg (halpha h2).2]
      · rw [if_neg h2]
  · intro x hx
    subst hx
    rfl
  · intro hlen
    match S, hlen with
    | [], _ => rfl
    | [x], h => exact absurd rfl h
    | x :: y :: t, _ => rfl

/-- C1 witness: the amended fall-through rule applied at the concrete input
supported = `["MyXYZ", "MyUVW"]`, request = RGBA. -/
theorem findSupportedComp_fallthrough_witness :
    findSupportedComp isChromaticComponent ["MyXYZ", "MyUVW"]
      kOfxImageComponentRGBA
      = findSupportedCompTail ["MyXYZ", "MyUVW"] :=
  (findSupportedComp_fallthrough kOfxImageComponentRGBA ["MyXYZ", "MyUVW"]
    (by decide) (by decide) (fun _ => by decide)
    (fun h => absurd h (by decide))).1

/-- C4: for every requested component `r` and supported list `S`,
`findSupportedComp` returns an element of `S`, or `r` itself, or the
sentinel "none"; and whenever `r` is an element of `S` the result is `r`.
Determinism in `(r, S)` holds by construction: the embedding is a pure Lean
function of the chromaticity predicate, `S` and `r`, and the predicate
`isChromaticComponent` is itself a fixed pure function. -/
theorem findSupportedComp_range_and_idempotence (r : String) (S : List String) :
    (findSupportedComp isChromaticComponent S r ∈ S
      ∨ findSupportedComp isChromaticComponent S r = r
      ∨ findSupportedComp isChromaticComponent S r = kOfxImageComponentNone)
    ∧ (r ∈ S → findSupportedComp isChromaticComponent S r = r) := by
  constructor
  · by_cases hmem : r ∈ S
    · rw [findSupportedComp, if_pos hmem]
      exact Or.inl hmem
    · rw [findSupportedComp, if_neg hmem]
      by_cases hc : isChromaticComponent r
      · rw [if_neg (by simp [hc])]
        by_cases h1 : r = kOfxImageComponentRGBA
        · rw [if_pos h1]
          by_cases hrgb : kOfxImageComponentRGB ∈ S
          · rw [if_pos hrgb]; exact Or.inl hrgb
          · rw [if_neg hrgb]
            by_cases ha : kOfxImageComponentAlpha ∈ S
            · rw [if_pos ha]; exact Or.inl ha
            · rw [if_neg ha]
              rcases findSupportedCompTail_mem_or_none S with h | h
              · exact Or.inl h
              · exact Or.inr (Or.inr h)
        · rw [if_neg h1]
          by_cases h2 : r = kOfxImageComponentAlpha
          · rw [if_pos h2]
            by_cases hrgba : kOfxImageComponentRGBA ∈ S
            · rw [if_pos hrgba]; exact Or.inl hrgba
            · rw [if_neg hrgba]
              by_cases hrgb : kOfxImageComponentRGB ∈ S
              · rw [if_pos hrgb]; exact Or.inl hrgb
              · rw [if_neg hrgb]
                rcases findSupportedCompTail_mem_or_none S with h | h
                · exact Or.inl h
                · exact Or.inr (Or.inr h)
          · rw [if_neg h2]
            rcases findSupportedCompTail_mem_or_none S with h | h
            · exact Or.inl h
            · exact Or.inr (Or.inr h)
      · rw [if_pos (by simp [hc])]
        exact Or.inr (Or.inl rfl)
  · intro hmem
    rw [findSupportedComp, if_pos hmem]

/-- C4 witness: the range and idempotence facts at the concrete input
request = RGB, supported = [RGB, Alpha]. -/
theorem findSupportedComp_range_and_idempotence_witness :
    findSupportedComp isChromaticComponent
      [kOfxImageComponentRGB, kOfxImageComponentAlpha] kOfxImageComponentRGB
      = kOfxImageComponentRGB :=
  (findSupportedComp_range_and_idempotence kOfxImageComponentRGB
    [kOfxImageComponentRGB, kOfxImageComponentAlpha]).2 (by decide)

/-- A typed property value.  C doubles are carried opaquely (no claim
computes with them), modelled as rationals; pointers as integer addresses. -/
inductive PropValue
  | i : Int → PropValue
  | d : ℚ → PropValue
  | s : String → PropValue
  | p : Int → PropValue
deriving DecidableEq, Repr

/-- `Property::TypeEnum` of the property suite. -/
inductive PropType
  | eInt
  | eDouble
  | eString
  | ePointer
deriving DecidableEq, Repr

/-- The zero value of a property type (used to pad a value vector that a
write extends, as the property suite's `resize` does). -/
def PropType.zero : PropType → PropValue
  | .eInt => .i 0
  | .eDouble => .d 0
  | .eString => .s ""
  | .ePointer => .p 0

/-- `Property::PropSpec`: one row of a static schema table.  In C the default
is a string the suite parses; here it is transcribed already typed. -/
structure PropSpec where
  name : String
  ptype : PropType
  dimension : Nat
  pluginReadOnly : Bool
  defaultValue : PropValue
deriving DecidableEq, Repr

/-- Modelled from the spec: one property of a `Property::Set` (the bag itself
is implemented in ofxhPropertySuite.cpp, not among the sources under
verification): its type, declared arity, plugin-read-only flag and current
value vector. -/
structure PropEntry where
  ptype : PropType
  dimension : Nat
  pluginReadOnly : Bool
  values : List PropValue
deriving DecidableEq, Repr

def PropEntry.ofSpec (sp : PropSpec) : PropEntry :=
  ⟨sp.ptype, sp.dimension, sp.pluginReadOnly,
    List.replicate sp.dimension sp.defaultValue⟩

/-- Modelled from the spec: `Property::Set` as an ordered key to property
map. -/
structure PropSet where
  entries : List (String × PropEntry)
deriving DecidableEq, Repr

def lookupEntry (name : String) : List (String × PropEntry) → Option PropEntry
  | [] => none
  | (k, e) :: t => if k = name then some e else lookupEntry name t

def PropSet.find (ps : PropSet) (name : String) : Option PropEntry :=
  lookupEntry name ps.entries

def PropSet.keys (ps : PropSet) : List String :=
  ps.entries.map Prod.fst

def PropSet.ofSpecs (sps : List PropSpec) : PropSet :=
  ⟨sps.map (fun sp => (sp.name, PropEntry.ofSpec sp))⟩

/-- Write at an index of a value vector, padding to length as the property
suite's `setValue` resize does. -/
def writeAt (l : List PropValue) (idx : Nat) (v : PropValue) (pad : PropValue) :
    List PropValue :=
  if idx < l.length then l.set idx v
  else l ++ List.replicate (idx - l.length) pad ++ [v]

def setValueEntries (name : String) (pt : PropType) (idx : Nat) (v : PropValue) :
    List (String × PropEntry) → List (String × PropEntry)
  | [] => [(name, ⟨pt, 0, false, writeAt [] idx v (PropType.zero pt)⟩)]
  | (k, e) :: t =>
    if k = name then
      (k, { e with values := writeAt e.values idx v (PropType.zero e.ptype) }) :: t
    else (k, e) :: setValueEntries name pt idx v t

/-- Modelled from the spec: a typed write into the bag.  A write to a key the
schema does not declare inserts it (the spec states the geometry constructor's
field value is "written to both the image-field and clip-field-order keys",
and the latter is not in the image schema). -/
def PropSet.setValue (ps : PropSet) (name : String) (pt : PropType) (idx : Nat)
    (v : PropValue) : PropSet :=
  ⟨setValueEntries name pt idx v ps.entries⟩

def PropSet.setString (ps : PropSet) (name : String) (v : String) : PropSet :=
  ps.setValue name .eString 0 (.s v)

def PropSet.setDouble (ps : PropSet) (name : String) (idx : Nat) (q : ℚ) :
    PropSet :=
  ps.setValue name .eDouble idx (.d q)

def PropSet.setInt (ps : PropSet) (name : String) (idx : Nat) (z : Int) :
    PropSet :=
  ps.setValue name .eInt idx (.i z)

/-- `Property::Set::setDoublePropertyN`: write a run of doubles starting at
index 0. -/
def PropSet.setDoubleList (ps : PropSet) (name : String) (vals : List ℚ) :
    PropSet :=
  vals.enum.foldl (fun acc iv => acc.setDouble name iv.1 iv.2) ps

def PropSet.getValue (ps : PropSet) (name : String) (idx : Nat) :
    Option PropValue :=
  (ps.find name).bind (fun e => e.values.get? idx)

def PropSet.getString (ps : PropSet) (name : String) (idx : Nat) : String :=
  match ps.getValue name idx with
  | some (.s v) => v
  | _ => ""

def PropSet.getDouble (ps : PropSet) (name : String) (idx : Nat) : ℚ :=
  match ps.getValue name idx with
  | some (.d q) => q
  | _ => 0

def PropSet.getInt (ps : PropSet) (name : String) (idx : Nat) : Int :=
  match ps.getValue name idx with
  | some (.i z) => z
  | _ => 0

/-- The `clipDescriptorStuffs` schema table (ofxhClip.cpp:26-39). -/
def clipDescriptorStuffs : List PropSpec :=
  [ ⟨kOfxPropType, .eString, 1, true, .s kOfxTypeClip⟩,
    ⟨kOfxPropName, .eString, 1, true, .s "SET ME ON CONSTRUCTION"⟩,
    ⟨kOfxPropLabel, .eString, 1, false, .s ""⟩,
    ⟨kOfxPropShortLabel, .eString, 1, false, .s ""⟩,
    ⟨kOfxPropLongLabel, .eString, 1, false, .s ""⟩,
    ⟨kOfxImageEffectPropSupportedComponents, .eString, 0, false, .s ""⟩,
    ⟨kOfxImageEffectPropTemporalClipAccess, .eInt, 1, false, .i 0⟩,
    ⟨kOfxImageClipPropOptional, .eInt, 1, false, .i 0⟩,
    ⟨kOfxImageClipPropIsMask, .eInt, 1, false, .i 0⟩,
    ⟨kOfxImageClipPropFieldExtraction, .eString, 1, false, .s kOfxImageFieldDoubled⟩,
    ⟨kOfxImageEffectPropSupportsTiles, .eInt, 1, false, .i 1⟩ ]

/-- The `clipInstanceStuffs` schema table (ofxhClip.cpp:168-183): the extra
host-computed properties an instance adds over a descriptor. -/
def clipInstanceStuffs : List PropSpec :=
  [ ⟨kOfxImageEffectPropPixelDepth, .eString, 1, true, .s kOfxBitDepthNone⟩,
    ⟨kOfxImageEffectPropComponents, .eString, 1, true, .s kOfxImageComponentNone⟩,
    ⟨kOfxImageClipPropUnmappedPixelDepth, .eString, 1, true, .s kOfxBitDepthNone⟩,
    ⟨kOfxImageClipPropUnmappedComponents, .eString, 1, true, .s kOfxImageComponentNone⟩,
    ⟨kOfxImageEffectPropPreMultiplication, .eString, 1, true, .s kOfxImageOpaqueStr⟩,
    ⟨kOfxImagePropPixelAspect, .eDouble, 1, true, .d 1⟩,
    ⟨kOfxImageEffectPropFrameRate, .eDouble, 1, true, .d 25⟩,
    ⟨kOfxImageEffectPropFrameRange, .eDouble, 2, true, .d 0⟩,
    ⟨kOfxImageClipPropFieldOrder, .eString, 1, true, .s kOfxImageFieldNone⟩,
    ⟨kOfxImageClipPropConnected, .eInt, 1, true, .i 0⟩,
    ⟨kOfxImageEffectPropUnmappedFrameRange, .eDouble, 2, true, .d 0⟩,
    ⟨kOfxImageEffectPropUnmappedFrameRate, .eDouble, 1, true, .d 25⟩,
    ⟨kOfxImageClipPropContinuousSamples, .eInt, 1, true, .i 0⟩ ]

/-- The `imageBaseStuffs` schema table (ofxhClip.cpp:459-472). -/
def imageBaseStuffs : List PropSpec :=
  [ ⟨kOfxPropType, .eString, 1, false, .s kOfxTypeImage⟩,
    ⟨kOfxImageEffectPropPixelDepth, .eString, 1, true, .s kOfxBitDepthNone⟩,
    ⟨kOfxImageEffectPropComponents, .eString, 1, true, .s kOfxImageComponentNone⟩,
    ⟨kOfxImageEffectPropPreMultiplication, .eString, 1, true, .s kOfxImageOpaqueStr⟩,
    ⟨kOfxImageEffectPropRenderScale, .eDouble, 2, true, .d 1⟩,
    ⟨kOfxImagePropPixelAspect, .eDouble, 1, true, .d 1⟩,
    ⟨kOfxImagePropBounds, .eInt, 4, true, .i 0⟩,
    ⟨kOfxImagePropRegionOfDefinition, .eInt, 4, true, .i 0⟩,
    ⟨kOfxImagePropRowBytes, .eInt, 1, true, .i 0⟩,
    ⟨kOfxImagePropField, .eString, 1, true, .s ""⟩,
    ⟨kOfxImagePropUniqueIdentifier, .eString, 1, true, .s ""⟩ ]

/-- `ClipBase::ClipBase(const ClipBase &v)` (ofxhClip.cpp:51-60): copy the
bag and clear every property's plugin-read-only flag. -/
def cloneProps (ps : PropSet) : PropSet :=
  ⟨ps.entries.map (fun e => (e.1, { e.2 with pluginReadOnly := false }))⟩

/-- `Property::Set::addProperty`, modelled from the spec: an existing key is
replaced by the fresh spec, a new key is appended. -/
def PropSet.addProperty (ps : PropSet) (sp : PropSpec) : PropSet :=
  if (lookupEntry sp.name ps.entries).isSome then
    ⟨ps.entries.map (fun e => if e.1 = sp.name then (sp.name, PropEntry.ofSpec sp) else e)⟩
  else ⟨ps.entries ++ [(sp.name, PropEntry.ofSpec sp)]⟩

def PropSet.addProperties (ps : PropSet) (sps : List PropSpec) : PropSet :=
  sps.foldl PropSet.addProperty ps

/-- `ClipDescriptor::ClipDescriptor(name)` (ofxhClip.cpp:160-164): the
descriptor schema with the name written in. -/
def mkClipDescriptor (name : String) : PropSet :=
  (PropSet.ofSpecs clipDescriptorStuffs).setString kOfxPropName name

/-- The property bag of a `ClipInstance` as built by its constructor
(ofxhClip.cpp:188-214): the descriptor's bag with read-only flags cleared
(`ClipBase` copy constructor) plus the instance schema. -/
def instancePropsOfDescriptor (descProps : PropSet) : PropSet :=
  (cloneProps descProps).addProperties clipInstanceStuffs

/-- `ClipBase::getName` (declared in ofxhClip.h; per the spec it returns the
name property set at construction). -/
def ClipBase.getName (ps : PropSet) : String :=
  ps.getString kOfxPropName 0

/-- `ClipBase::getLabel` (ofxhClip.cpp:73-80). -/
def ClipBase.getLabel (ps : PropSet) : String :=
  let s := ps.getString kOfxPropLabel 0
  if s = "" then ClipBase.getName ps else s

/-- `ClipBase::getShortLabel` (ofxhClip.cpp:63-70). -/
def ClipBase.getShortLabel (ps : PropSet) : String :=
  let s := ps.getString kOfxPropShortLabel 0
  if s = "" then ClipBase.getLabel ps else s

/-- `ClipBase::getLongLabel` (ofxhClip.cpp:83-90). -/
def ClipBase.getLongLabel (ps : PropSet) : String :=
  let s := ps.getString kOfxPropLongLabel 0
  if s = "" then ClipBase.getLabel ps else s

/-- C9: on a clip bag carrying arbitrary name, label, short-label and
long-label values, `getLabel` returns the label when non-empty and otherwise
the name; `getShortLabel` returns the short label when non-empty and
otherwise `getLabel`; `getLongLabel` returns the long label when non-empty
and otherwise `getLabel`. -/
theorem clip_label_fallbacks (nm lbl short long : String) :
    ClipBase.getLabel
        ((((mkClipDescriptor nm).setString kOfxPropLabel lbl).setString
          kOfxPropShortLabel short).setString kOfxPropLongLabel long)
      = (if lbl = "" then nm else lbl)
    ∧ ClipBase.getShortLabel
        ((((mkClipDescriptor nm).setString kOfxPropLabel lbl).setString
          kOfxPropShortLabel short).setString kOfxPropLongLabel long)
      = (if short = "" then (if lbl = "" then nm else lbl) else short)
    ∧ ClipBase.getLongLabel
        ((((mkClipDescriptor nm).setString kOfxPropLabel lbl).setString
          kOfxPropShortLabel short).setString kOfxPropLongLabel long)
      = (if long = "" then (if lbl = "" then nm else lbl) else long) := by
  refine ⟨?_, ?_, ?_⟩ <;>
    simp [mkClipDescriptor, PropSet.ofSpecs, clipDescriptorStuffs,
      PropSet.setString, PropSet.setValue, setValueEntries, writeAt,
      PropSet.getString, PropSet.getValue, PropSet.find, lookupEntry,
      PropEntry.ofSpec, PropType.zero,
      ClipBase.getLabel, ClipBase.getShortLabel, ClipBase.getLongLabel,
      ClipBase.getName,
      kOfxPropType, kOfxPropName, kOfxPropLabel, kOfxPropShortLabel,
      kOfxPropLongLabel, kOfxImageEffectPropSupportedComponents,
      kOfxImageEffectPropTemporalClipAccess, kOfxImageClipPropOptional,
      kOfxImageClipPropIsMask, kOfxImageClipPropFieldExtraction,
      kOfxImageEffectPropSupportsTiles, kOfxTypeClip, kOfxImageFieldDoubled]

/-- The effect instance a clip is bound to, reduced to the members
ofxhClip.cpp reaches through the `_effectInstance` pointer: the chromaticity
predicate, the main-entry callback and the effect handle (an opaque
address). -/
structure EffectInstance where
  handle : Int
  isChromaticComponent : String → Bool
  mainEntry : String → Int → PropSet → OfxStatus

/-- A live `ClipInstance` (ofxhClip.cpp:188-214): its property bag, the
(possibly null) back-reference to the owning effect, the output flag cached
from the descriptor, and the values of the pure virtual accessors a host
subclass implements (getPixelDepth, getComponents, ..., declared in
ofxhClip.h).  The hook readers below dispatch on these exactly as the
source's switch on property names does. -/
structure ClipInstance where
  props : PropSet
  effectInstance : Option EffectInstance
  isOutput : Bool
  pixelDepth : String
  components : String
  unmappedComponents : String
  unmappedBitDepth : String
  premult : String
  pixelAspect : ℚ
  frameRate : ℚ
  frameRange : ℚ × ℚ
  unmappedFrameRate : ℚ
  unmappedFrameRange : ℚ × ℚ
  fieldOrder : String
  connected : Bool
  continuousSamples : Bool

def ClipInstance.getName (c : ClipInstance) : String :=
  ClipBase.getName c.props

/-- `ClipInstance::getDimension` (ofxhClip.cpp:217-222). -/
def ClipInstance.getDimension (name : String) : Nat :=
  if name = kOfxImageEffectPropUnmappedFrameRange
      ∨ name = kOfxImageEffectPropFrameRange then 2
  else 1

/-- The result of a C++ read of one double: either a defined value or the
unspecified result of an out-of-bounds array read (undefined behaviour,
which the source's `range[n]` performs when `n` is negative). -/
inductive DVal
  | val : ℚ → DVal
  | undef : DVal
deriving DecidableEq, Repr

/-- `ClipInstance::getDoubleProperty` (ofxhClip.cpp:270-298).  Note the
source checks `n != 0` for the aspect and frame-rate keys but `n > 0` for
the unmapped frame rate and `n > 1` for the two range keys, so a negative
`n` passes those guards: the unmapped frame rate is then returned as if the
index were 0, and the range keys read `range[n]` out of bounds. -/
def ClipInstance.getDoubleProperty (c : ClipInstance) (name : String) (n : Int) :
    Except OfxStatus DVal :=
  if name = kOfxImagePropPixelAspect then
    if n ≠ 0 then .error kOfxStatErrValue else .ok (.val c.pixelAspect)
  else if name = kOfxImageEffectPropFrameRate then
    if n ≠ 0 then .error kOfxStatErrValue else .ok (.val c.frameRate)
  else if name = kOfxImageEffectPropFrameRange then
    if n > 1 then .error kOfxStatErrValue
    else .ok (if n = 0 then .val c.frameRange.1
              else if n = 1 then .val c.frameRange.2 else .undef)
  else if name = kOfxImageEffectPropUnmappedFrameRate then
    if n > 0 then .error kOfxStatErrValue else .ok (.val c.unmappedFrameRate)
  else if name = kOfxImageEffectPropUnmappedFrameRange then
    if n > 1 then .error kOfxStatErrValue
    else .ok (if n = 0 then .val c.unmappedFrameRange.1
              else if n = 1 then .val c.unmappedFrameRange.2 else .undef)
  else .error kOfxStatErrValue

/-- `ClipInstance::getDoublePropertyN` (ofxhClip.cpp:243-267).  The returned
list is the run of doubles the source stores through the `values` pointer:
it writes whenever the count guard passes, including for count 0 (there is
no count-0 early return in this reader). -/
def ClipInstance.getDoublePropertyN (c : ClipInstance) (name : String)
    (n : Int) : Except OfxStatus (List ℚ) :=
  if name = kOfxImagePropPixelAspect then
    if n > 1 then .error kOfxStatErrValue else .ok [c.pixelAspect]
  else if name = kOfxImageEffectPropFrameRate then
    if n > 1 then .error kOfxStatErrValue else .ok [c.frameRate]
  else if name = kOfxImageEffectPropFrameRange then
    if n > 2 then .error kOfxStatErrValue
    else .ok [c.frameRange.1, c.frameRange.2]
  else if name = kOfxImageEffectPropUnmappedFrameRate then
    if n > 1 then .error kOfxStatErrValue else .ok [c.unmappedFrameRate]
  else if name = kOfxImageEffectPropUnmappedFrameRange then
    if n > 2 then .error kOfxStatErrValue
    else .ok [c.unmappedFrameRange.1, c.unmappedFrameRange.2]
  else .error kOfxStatErrValue

/-- `ClipInstance::getIntProperty` (ofxhClip.cpp:301-312). -/
def ClipInstance.getIntProperty (c : ClipInstance) (name : String) (n : Int) :
    Except OfxStatus Int :=
  if n ≠ 0 then .error kOfxStatErrValue
  else if name = kOfxImageClipPropConnected then
    .ok (if c.connected then 1 else 0)
  else if name = kOfxImageClipPropContinuousSamples then
    .ok (if c.continuousSamples then 1 else 0)
  else .error kOfxStatErrValue

/-- `ClipInstance::getIntPropertyN` (ofxhClip.cpp:315-319).  The source
rejects every count other than 0 (`if(n!=0) throw`) and then, with count 0,
stores one int through the `values` pointer. -/
def ClipInstance.getIntPropertyN (c : ClipInstance) (name : String) (n : Int) :
    Except OfxStatus (List Int) :=
  if n ≠ 0 then .error kOfxStatErrValue
  else do
    let v ← c.getIntProperty name 0
    .ok [v]

/-- `ClipInstance::getStringProperty` (ofxhClip.cpp:322-345). -/
def ClipInstance.getStringProperty (c : ClipInstance) (name : String)
    (n : Int) : Except OfxStatus String :=
  if n ≠ 0 then .error kOfxStatErrValue
  else if name = kOfxImageEffectPropPixelDepth then .ok c.pixelDepth
  else if name = kOfxImageEffectPropComponents then .ok c.components
  else if name = kOfxImageClipPropUnmappedComponents then
    .ok c.unmappedComponents
  else if name = kOfxImageClipPropUnmappedPixelDepth then
    .ok c.unmappedBitDepth
  else if name = kOfxImageEffectPropPreMultiplication then .ok c.premult
  else if name = kOfxImageClipPropFieldOrder then .ok c.fieldOrder
  else .error kOfxStatErrValue

/-- `ClipInstance::getStringPropertyN` (ofxhClip.cpp:348-374): count 0 is an
early return with no write, count 1 stores the scalar value, any other count
is a value error. -/
def ClipInstance.getStringPropertyN (c : ClipInstance) (name : String)
    (count : Int) : Except OfxStatus (List String) :=
  if count = 0 then .ok []
  else if count ≠ 1 then .error kOfxStatErrValue
  else if name = kOfxImageEffectPropPixelDepth then .ok [c.pixelDepth]
  else if name = kOfxImageEffectPropComponents then .ok [c.components]
  else if name = kOfxImageClipPropUnmappedComponents then
    .ok [c.unmappedComponents]
  else if name = kOfxImageClipPropUnmappedPixelDepth then
    .ok [c.unmappedBitDepth]
  else if name = kOfxImageEffectPropPreMultiplication then .ok [c.premult]
  else if name = kOfxImageClipPropFieldOrder then .ok [c.fieldOrder]
  else .error kOfxStatErrValue

/-- A concrete connected clip instance used to evaluate the hook readers at
the inputs where the code and the specification diverge. -/
def sampleClip : ClipInstance where
  props := instancePropsOfDescriptor (mkClipDescriptor "Source")
  effectInstance := some ⟨7, isChromaticComponent, fun _ _ _ => kOfxStatOK⟩
  isOutput := false
  pixelDepth := "OfxBitDepthByte"
  components := kOfxImageComponentRGBA
  unmappedComponents := kOfxImageComponentRGBA
  unmappedBitDepth := "OfxBitDepthByte"
  premult := kOfxImageOpaqueStr
  pixelAspect := 1
  frameRate := 24
  frameRange := (1, 100)
  unmappedFrameRate := 25
  unmappedFrameRange := (0, 50)
  fieldOrder := kOfxImageFieldNone
  connected := true
  continuousSamples := false

/-- C2 failing input, evaluated: on the recognised int key "connected",
`getIntPropertyN` with count 1 fails with a value error instead of returning
the scalar accessor's value, and with count 0 it stores one value instead of
performing no write.  (`getStringPropertyN`, by contrast, implements the
claimed contract, as the last two conjuncts record.) -/
theorem getIntPropertyN_count_contract_bug :
    ClipInstance.getIntPropertyN sampleClip kOfxImageClipPropConnected 1
      = .error kOfxStatErrValue
    ∧ ClipInstance.getIntPropertyN sampleClip kOfxImageClipPropConnected 0
      = .ok [1]
    ∧ ClipInstance.getDoublePropertyN sampleClip kOfxImagePropPixelAspect 0
      = .ok [1]
    ∧ ClipInstance.getStringPropertyN sampleClip kOfxImageEffectPropComponents 0
      = .ok []
    ∧ ClipInstance.getStringPropertyN sampleClip kOfxImageEffectPropComponents 1
      = .ok [kOfxImageComponentRGBA] := by
  exact ⟨rfl, rfl, rfl, rfl, rfl⟩

/-- C3 failing input, evaluated: `getDoubleProperty` on the unmapped
frame-rate key accepts the negative index -1 (the source guards with
`n > 0`, not `n != 0`) and returns the accessor's value instead of failing
with a value error; the sibling frame-rate key correctly rejects -1. -/
theorem getDoubleProperty_negative_index_bug :
    ClipInstance.getDoubleProperty sampleClip
        kOfxImageEffectPropUnmappedFrameRate (-1)
      = .ok (.val 25)
    ∧ ClipInstance.getDoubleProperty sampleClip
        kOfxImageEffectPropFrameRate (-1)
      = .error kOfxStatErrValue
    ∧ ClipInstance.getDoubleProperty sampleClip
        kOfxImageEffectPropFrameRange (-1)
      = .ok .undef := by
  exact ⟨rfl, rfl, rfl⟩

/-- The `stuff` schema `instanceChangedAction` builds its input-args bag
from (ofxhClip.cpp:385-392). -/
def instanceChangedStuff (name why : String) : List PropSpec :=
  [ ⟨kOfxPropType, .eString, 1, true, .s kOfxTypeClip⟩,
    ⟨kOfxPropName, .eString, 1, true, .s name⟩,
    ⟨kOfxPropChangeReason, .eString, 1, true, .s why⟩,
    ⟨kOfxPropTime, .eDouble, 1, true, .d 0⟩,
    ⟨kOfxImageEffectPropRenderScale, .eDouble, 2, true, .d 0⟩ ]

/-- The input-args bag of `instanceChangedAction` after the time and
render-scale writes (ofxhClip.cpp:394-398). -/
def instanceChangedInArgs (name why : String) (time rsx rsy : ℚ) : PropSet :=
  ((PropSet.ofSpecs (instanceChangedStuff name why)).setDouble
    kOfxPropTime 0 time).setDoubleList kOfxImageEffectPropRenderScale [rsx, rsy]

/-- `ClipInstance::instanceChangedAction` (ofxhClip.cpp:381-413). -/
def ClipInstance.instanceChangedAction (c : ClipInstance) (why : String)
    (time : ℚ) (rs : ℚ × ℚ) : OfxStatus :=
  let inArgs := instanceChangedInArgs c.getName why time rs.1 rs.2
  match c.effectInstance with
  | some e => e.mainEntry kOfxActionInstanceChanged e.handle inArgs
  | none => kOfxStatFailed

/-- C8: `instanceChangedAction` builds an input-args bag holding exactly the
keys type, name, change-reason, time and render-scale, with type = "clip",
name the clip's name, change-reason = why, the time value, and the
two-element render scale; when an effect instance is bound it returns
verbatim the status of `mainEntry` applied to the "instance-changed" action
identifier, the effect's handle and that bag, and when none is bound it
returns the failed status (there is no `mainEntry` to invoke). -/
theorem instanceChangedAction_packaging (c : ClipInstance) (why : String)
    (t : ℚ) (rs : ℚ × ℚ) :
    PropSet.keys (instanceChangedInArgs c.getName why t rs.1 rs.2)
      = [kOfxPropType, kOfxPropName, kOfxPropChangeReason, kOfxPropTime,
         kOfxImageEffectPropRenderScale]
    ∧ (instanceChangedInArgs c.getName why t rs.1 rs.2).getString
        kOfxPropType 0 = kOfxTypeClip
    ∧ (instanceChangedInArgs c.getName why t rs.1 rs.2).getString
        kOfxPropName 0 = c.getName
    ∧ (instanceChangedInArgs c.getName why t rs.1 rs.2).getString
        kOfxPropChangeReason 0 = why
    ∧ (instanceChangedInArgs c.getName why t rs.1 rs.2).getDouble
        kOfxPropTime 0 = t
    ∧ ((instanceChangedInArgs c.getName why t rs.1 rs.2).find
        kOfxImageEffectPropRenderScale).map PropEntry.values
      = some [.d rs.1, .d rs.2]
    ∧ (∀ e, c.effectInstance = some e →
        c.instanceChangedAction why t rs
          = e.mainEntry kOfxActionInstanceChanged e.handle
              (instanceChangedInArgs c.getName why t rs.1 rs.2))
    ∧ (c.effectInstance = none →
        c.instanceChangedAction why t rs = kOfxStatFailed) := by
  refine ⟨rfl, rfl, rfl, rfl, rfl, rfl, ?_, ?_⟩
  · intro e he
    simp [ClipInstance.instanceChangedAction, he]
  · intro he
    simp [ClipInstance.instanceChangedAction, he]

/-- C8 witness: the packaging facts applied at the concrete connected sample
clip, whose bound effect's `mainEntry` constantly returns OK. -/
theorem instanceChangedAction_packaging_witness :
    ClipInstance.instanceChangedAction sampleClip "OfxChangeUserEdited" 3
      (1, 1) = kOfxStatOK :=
  ((instanceChangedAction_packaging sampleClip "OfxChangeUserEdited" 3
      (1, 1)).2.2.2.2.2.2.1
    ⟨7, isChromaticComponent, fun _ _ _ => kOfxStatOK⟩ rfl).trans rfl

/-- The string values of a property (used by
`ClipBase::getSupportedComponents`, ofxhClip.cpp:93-98, which returns the
value vector of the supported-components property). -/
def PropEntry.stringValues (e : PropEntry) : List String :=
  e.values.filterMap (fun v => match v with | .s x => some x | _ => none)

def ClipBase.getSupportedComponents (ps : PropSet) : List String :=
  match ps.find kOfxImageEffectPropSupportedComponents with
  | some e => e.stringValues
  | none => []

/-- `ClipInstance::findSupportedComp` as executed on a clip object: the
supported list comes from the clip's bag, and when the requested component
is not supported the code dereferences `_effectInstance` with no null check
(ofxhClip.cpp:428); a null back-reference on that path is modelled as the
absent result. -/
def ClipInstance.findSupportedCompRun (c : ClipInstance) (s : String) :
    Option String :=
  let S := ClipBase.getSupportedComponents c.props
  if s ∈ S then some s
  else
    match c.effectInstance with
    | none => none
    | some e => some (findSupportedComp e.isChromaticComponent S s)

/-- C10: when the requested component is not in the supported list,
`findSupportedComp` reaches `_effectInstance->isChromaticComponent` with no
null check, so a bound effect instance is a precondition on that path (the
run is undefined with a null effect, and always defined with a bound one),
whereas `instanceChangedAction` checks for the null effect instance and
returns the failed status. -/
theorem findSupportedComp_needs_bound_effect :
    (∀ c : ClipInstance, c.effectInstance = none →
      ∀ s, s ∉ ClipBase.getSupportedComponents c.props →
        c.findSupportedCompRun s = none)
    ∧ (∀ (c : ClipInstance) (e : EffectInstance), c.effectInstance = some e →
      ∀ s, c.findSupportedCompRun s
        = some (findSupportedComp e.isChromaticComponent
            (ClipBase.getSupportedComponents c.props) s))
    ∧ (∀ c : ClipInstance, c.effectInstance = none →
      ∀ why t rs, c.instanceChangedAction why t rs = kOfxStatFailed) := by
  refine ⟨?_, ?_, ?_⟩
  · intro c hc s hs
    simp [ClipInstance.findSupportedCompRun, hs, hc]
  · intro c e hc s
    simp only [ClipInstance.findSupportedCompRun, hc]
    by_cases hs : s ∈ ClipBase.getSupportedComponents c.props
    · rw [if_pos hs, findSupportedComp, if_pos hs]
    · rw [if_neg hs]
  · intro c hc why t rs
    simp [ClipInstance.instanceChangedAction, hc]

/-- The sample clip with the effect back-reference null. -/
def nullEffectClip : ClipInstance :=
  { sampleClip with effectInstance := none }

/-- C10 witness: the precondition facts applied at a concrete clip whose
effect back-reference is null, with the unsupported request "MyABC". -/
theorem findSupportedComp_needs_bound_effect_witness :
    ClipInstance.findSupportedCompRun nullEffectClip "MyABC" = none
    ∧ ClipInstance.instanceChangedAction nullEffectClip "OfxChangeUserEdited"
        3 (1, 1) = kOfxStatFailed :=
  ⟨findSupportedComp_needs_bound_effect.1 nullEffectClip rfl "MyABC"
      (by decide),
    findSupportedComp_needs_bound_effect.2.2 nullEffectClip rfl
      "OfxChangeUserEdited" 3 (1, 1)⟩

/-- A call on an image's reference count: `ImageBase::addReference`
(declared in ofxhClip.h; per the spec it increments the counter by 1) or
`ImageBase::releaseReference` (ofxhClip.cpp:559-564). -/
inductive RefOp
  | addRef
  | release
deriving DecidableEq, Repr

/-- The lifetime state of one image: its reference counter and whether the
destructor has run.  After `delete this` any further call is undefined
behaviour in C++; the model makes the destroyed state absorbing. -/
structure ImageLife where
  refCount : Int
  destroyed : Bool
deriving DecidableEq, Repr

/-- `ImageBase::ImageBase` initialises the counter to 1
(ofxhClip.cpp:474-478). -/
def imageLifeInit : ImageLife := ⟨1, false⟩

/-- One call: `addReference` increments by 1; `releaseReference` decrements
by 1 and, when the counter reaches 0 or below, deletes the object
(ofxhClip.cpp:559-564).  The returned flag records whether the destructor
ran on this call. -/
def stepRef : ImageLife → RefOp → ImageLife × Bool
  | ⟨c, false⟩, .addRef => (⟨c + 1, false⟩, false)
  | ⟨c, false⟩, .release =>
    if c - 1 ≤ 0 then (⟨c - 1, true⟩, true) else (⟨c - 1, false⟩, false)
  | ⟨c, true⟩, _ => (⟨c, true⟩, false)

/-- One call together with the destructor-run count. -/
def stepRefCnt (acc : ImageLife × Nat) (op : RefOp) : ImageLife × Nat :=
  ((stepRef acc.1 op).1, acc.2 + if (stepRef acc.1 op).2 then 1 else 0)

/-- Run a call sequence from a given state, counting destructor runs. -/
def runRefOpsFrom (s : ImageLife × Nat) (ops : List RefOp) : ImageLife × Nat :=
  ops.foldl stepRefCnt s

/-- Run a call sequence on a freshly constructed image. -/
def runRefOps (ops : List RefOp) : ImageLife × Nat :=
  runRefOpsFrom (imageLifeInit, 0) ops

lemma runRefOpsFrom_destroyed (ops : List RefOp) (c : Int) (m : Nat) :
    runRefOpsFrom (⟨c, true⟩, m) ops = (⟨c, true⟩, m) := by
  induction ops with
  | nil => rfl
  | cons op t ih =>
    show runRefOpsFrom (stepRefCnt (⟨c, true⟩, m) op) t = _
    rw [show stepRefCnt (⟨c, true⟩, m) op = (⟨c, true⟩, m) from by
      cases op <;> rfl]
    exact ih

lemma runRefOpsFrom_adds (k : Nat) (c : Int) (m : Nat) :
    runRefOpsFrom (⟨c, false⟩, m) (List.replicate k .addRef)
      = (⟨c + k, false⟩, m) := by
  induction k generalizing c with
  | zero => simp [runRefOpsFrom]
  | succ k ih =>
    rw [List.replicate_succ]
    show runRefOpsFrom (stepRefCnt (⟨c, false⟩, m) .addRef)
      (List.replicate k .addRef) = _
    rw [show stepRefCnt (⟨c, false⟩, m) .addRef = (⟨c + 1, false⟩, m) from rfl]
    rw [ih (c + 1)]
    push_cast
    rw [show c + 1 + (k : Int) = c + ((k : Int) + 1) from by ring]

lemma runRefOpsFrom_releases (n : Nat) :
    ∀ (c : Int) (m : Nat), 1 ≤ c →
      runRefOpsFrom (⟨c, false⟩, m) (List.replicate n .release)
        = if c ≤ (n : Int) then (⟨0, true⟩, m + 1) else (⟨c - n, false⟩, m) := by
  induction n with
  | zero =>
    intro c m hc
    rw [if_neg (by push_cast; omega)]
    simp [runRefOpsFrom]
  | succ n ih =>
    intro c m hc
    rw [List.replicate_succ]
    show runRefOpsFrom (stepRefCnt (⟨c, false⟩, m) .release)
      (List.replicate n .release) = _
    by_cases h1 : c = 1
    · subst h1
      rw [show stepRefCnt (⟨(1 : Int), false⟩, m) .release
          = (⟨0, true⟩, m + 1) from rfl]
      rw [runRefOpsFrom_destroyed, if_pos (by push_cast; omega)]
    · have hstep : stepRefCnt (⟨c, false⟩, m) .release = (⟨c - 1, false⟩, m) := by
        simp [stepRefCnt, stepRef, show ¬(c - 1 ≤ 0) from by omega]
      rw [hstep, ih (c - 1) m (by omega)]
      by_cases h2 : c - 1 ≤ (n : Int)
      · rw [if_pos h2, if_pos (by push_cast; omega)]
      · rw [if_neg h2, if_neg (by push_cast; omega)]
        push_cast
        rw [show c - 1 - (n : Int) = c - ((n : Int) + 1) from by ring]

/-- C6: on an image whose reference count is initialised to 1 at
construction, after k `addReference` calls followed by n `releaseReference`
calls the destructor has run exactly once when n > k and not at all when
n ≤ k; each release performed on a live image decrements the counter by
exactly 1 (the final state's counter records 1 + k - n until destruction,
which pins the counter at 0). -/
theorem image_refcount_destructor_exactly_once (k n : Nat) :
    (runRefOps (List.replicate k .addRef ++ List.replicate n .release)).2
      = (if k < n then 1 else 0)
    ∧ (runRefOps (List.replicate k .addRef ++ List.replicate n .release)).1.destroyed
      = decide (k < n)
    ∧ (runRefOps (List.replicate k .addRef ++ List.replicate n .release)).1.refCount
      = (if k < n then 0 else 1 + (k : Int) - n)
    ∧ ∀ c : Int, (stepRef ⟨c, false⟩ .release).1.refCount = c - 1 := by
  have hadds : runRefOpsFrom (imageLifeInit, 0) (List.replicate k .addRef)
      = (⟨1 + (k : Int), false⟩, 0) :=
    runRefOpsFrom_adds k 1 0
  have hsplit :
      runRefOps (List.replicate k .addRef ++ List.replicate n .release)
        = runRefOpsFrom (⟨1 + (k : Int), false⟩, 0)
            (List.replicate n .release) := by
    rw [runRefOps, runRefOpsFrom, List.foldl_append, ← hadds, runRefOpsFrom,
      runRefOpsFrom]
  rw [hsplit, runRefOpsFrom_releases n (1 + (k : Int)) 0 (by omega)]
  by_cases h : k < n
  · rw [if_pos (by omega)]
    refine ⟨by simp [h], by simp [h], by simp [h], ?_⟩
    intro c
    by_cases hc : c - 1 ≤ 0 <;> simp [stepRef, hc]
  · rw [if_neg (by omega)]
    refine ⟨by simp [h], by simp [h], by simp [h], ?_⟩
    intro c
    by_cases hc : c - 1 ≤ 0 <;> simp [stepRef, hc]

/-- The keys the `ClipInstance` constructor installs itself as get-hook for
(ofxhClip.cpp:198-213): every instance-schema key whose type is double,
string or int (the switch's default skips only pointer-typed keys, of which
the instance schema has none). -/
def hookedKeys : List String :=
  (clipInstanceStuffs.filter (fun sp =>
    match sp.ptype with
    | .ePointer => false
    | _ => true)).map PropSpec.name

/-- A `Property::Set::getStringProperty` read on a clip instance's bag: a
hooked key is answered by the instance's get-hook (index 0), any other key
from stored state (spec section on the get-hook contract; the bag itself is
ofxhPropertySuite.cpp, not among the sources under verification). -/
def ClipInstance.readStringProp (c : ClipInstance) (name : String) :
    Except OfxStatus String :=
  if name ∈ hookedKeys then c.getStringProperty name 0
  else .ok (c.props.getString name 0)

/-- The defined value of a double read: the uses below are all hook reads at
index 0 of recognised keys, which never produce the undefined marker. -/
def DVal.toRat : DVal → ℚ
  | .val q => q
  | .undef => 0

/-- A `Property::Set::getDoubleProperty` read on a clip instance's bag. -/
def ClipInstance.readDoubleProp (c : ClipInstance) (name : String) :
    Except OfxStatus ℚ :=
  if name ∈ hookedKeys then (c.getDoubleProperty name 0).map DVal.toRat
  else .ok (c.props.getDouble name 0)

/-- `ImageBase::getClipBits` (ofxhClip.cpp:481-498): copy pixel depth,
components, premultiplication and pixel aspect ratio from the clip's bag
(whose reads go through the instance's get-hook) into the image's bag. -/
def ImageBase.getClipBits (img : PropSet) (c : ClipInstance) :
    Except OfxStatus PropSet := do
  let depth ← c.readStringProp kOfxImageEffectPropPixelDepth
  let img := img.setString kOfxImageEffectPropPixelDepth depth
  let comps ← c.readStringProp kOfxImageEffectPropComponents
  let img := img.setString kOfxImageEffectPropComponents comps
  let premult ← c.readStringProp kOfxImageEffectPropPreMultiplication
  let img := img.setString kOfxImageEffectPropPreMultiplication premult
  let aspect ← c.readDoubleProp kOfxImagePropPixelAspect
  .ok (img.setDouble kOfxImagePropPixelAspect 0 aspect)

/-- `ImageBase::ImageBase(ClipInstance&)` (ofxhClip.cpp:501-506): the image
schema with the clip bits copied in. -/
def ImageBase.fromClip (c : ClipInstance) : Except OfxStatus PropSet :=
  ImageBase.getClipBits (PropSet.ofSpecs imageBaseStuffs) c

/-- `OfxRectI`. -/
structure RectI where
  x1 : Int
  y1 : Int
  x2 : Int
  y2 : Int
deriving DecidableEq, Repr

/-- The write sequence of the geometry constructor's body after
`getClipBits` (ofxhClip.cpp:522-537): render scale, bounds, region of
definition, row bytes, the field value under both the image-field and the
clip-field-order keys, and the unique identifier. -/
def geomWrites (img : PropSet) (rsx rsy : ℚ) (bounds rod : RectI)
    (rowBytes : Int) (field uid : String) : PropSet :=
  let i1 := img.setDouble kOfxImageEffectPropRenderScale 0 rsx
  let i2 := i1.setDouble kOfxImageEffectPropRenderScale 1 rsy
  let i3 := i2.setInt kOfxImagePropBounds 0 bounds.x1
  let i4 := i3.setInt kOfxImagePropBounds 1 bounds.y1
  let i5 := i4.setInt kOfxImagePropBounds 2 bounds.x2
  let i6 := i5.setInt kOfxImagePropBounds 3 bounds.y2
  let i7 := i6.setInt kOfxImagePropRegionOfDefinition 0 rod.x1
  let i8 := i7.setInt kOfxImagePropRegionOfDefinition 1 rod.y1
  let i9 := i8.setInt kOfxImagePropRegionOfDefinition 2 rod.x2
  let i10 := i9.setInt kOfxImagePropRegionOfDefinition 3 rod.y2
  let i11 := i10.setInt kOfxImagePropRowBytes 0 rowBytes
  let i12 := i11.setString kOfxImagePropField field
  let i13 := i12.setString kOfxImageClipPropFieldOrder field
  i13.setString kOfxImagePropUniqueIdentifier uid

/-- `ImageBase::ImageBase(ClipInstance&, renderScaleX, renderScaleY, bounds,
rod, rowBytes, field, uniqueIdentifier)` (ofxhClip.cpp:509-538): the clip
bits, then the geometry writes. -/
def ImageBase.fromClipGeom (c : ClipInstance) (rsx rsy : ℚ)
    (bounds rod : RectI) (rowBytes : Int) (field uid : String) :
    Except OfxStatus PropSet := do
  let img ← ImageBase.fromClip c
  .ok (geomWrites img rsx rsy bounds rod rowBytes field uid)

lemma exceptBindOk {α β ε : Type} (a : α) (f : α → Except ε β) :
    (Except.ok a : Except ε α) >>= f = f a :=
  rfl

lemma readStringProp_pixelDepth (c : ClipInstance) :
    c.readStringProp kOfxImageEffectPropPixelDepth = .ok c.pixelDepth := by
  simp [ClipInstance.readStringProp, hookedKeys, clipInstanceStuffs,
    ClipInstance.getStringProperty, kOfxImageEffectPropPixelDepth,
    kOfxImageEffectPropComponents, kOfxImageClipPropUnmappedPixelDepth,
    kOfxImageClipPropUnmappedComponents, kOfxImageEffectPropPreMultiplication,
    kOfxImagePropPixelAspect, kOfxImageEffectPropFrameRate,
    kOfxImageEffectPropFrameRange, kOfxImageClipPropFieldOrder,
    kOfxImageClipPropConnected, kOfxImageEffectPropUnmappedFrameRange,
    kOfxImageEffectPropUnmappedFrameRate, kOfxImageClipPropContinuousSamples]

lemma readStringProp_components (c : ClipInstance) :
    c.readStringProp kOfxImageEffectPropComponents = .ok c.components := by
  simp [ClipInstance.readStringProp, hookedKeys, clipInstanceStuffs,
    ClipInstance.getStringProperty, kOfxImageEffectPropPixelDepth,
    kOfxImageEffectPropComponents, kOfxImageClipPropUnmappedPixelDepth,
    kOfxImageClipPropUnmappedComponents, kOfxImageEffectPropPreMultiplication,
    kOfxImagePropPixelAspect, kOfxImageEffectPropFrameRate,
    kOfxImageEffectPropFrameRange, kOfxImageClipPropFieldOrder,
    kOfxImageClipPropConnected, kOfxImageEffectPropUnmappedFrameRange,
    kOfxImageEffectPropUnmappedFrameRate, kOfxImageClipPropContinuousSamples]

lemma readStringProp_premult (c : ClipInstance) :
    c.readStringProp kOfxImageEffectPropPreMultiplication = .ok c.premult := by
  simp [ClipInstance.readStringProp, hookedKeys, clipInstanceStuffs,
    ClipInstance.getStringProperty, kOfxImageEffectPropPixelDepth,
    kOfxImageEffectPropComponents, kOfxImageClipPropUnmappedPixelDepth,
    kOfxImageClipPropUnmappedComponents, kOfxImageEffectPropPreMultiplication,
    kOfxImagePropPixelAspect, kOfxImageEffectPropFrameRate,
    kOfxImageEffectPropFrameRange, kOfxImageClipPropFieldOrder,
    kOfxImageClipPropConnected, kOfxImageEffectPropUnmappedFrameRange,
    kOfxImageEffectPropUnmappedFrameRate, kOfxImageClipPropContinuousSamples]

lemma readDoubleProp_pixelAspect (c : ClipInstance) :
    c.readDoubleProp kOfxImagePropPixelAspect = .ok c.pixelAspect := by
  simp [ClipInstance.readDoubleProp, hookedKeys, clipInstanceStuffs,
    ClipInstance.getDoubleProperty, DVal.toRat, Except.map,
    kOfxImageEffectPropPixelDepth,
    kOfxImageEffectPropComponents, kOfxImageClipPropUnmappedPixelDepth,
    kOfxImageClipPropUnmappedComponents, kOfxImageEffectPropPreMultiplication,
    kOfxImagePropPixelAspect, kOfxImageEffectPropFrameRate,
    kOfxImageEffectPropFrameRange, kOfxImageClipPropFieldOrder,
    kOfxImageClipPropConnected, kOfxImageEffectPropUnmappedFrameRange,
    kOfxImageEffectPropUnmappedFrameRate, kOfxImageClipPropContinuousSamples]

lemma fromClip_eq (c : ClipInstance) :
    ImageBase.fromClip c
      = .ok (((((PropSet.ofSpecs imageBaseStuffs).setString
          kOfxImageEffectPropPixelDepth c.pixelDepth).setString
          kOfxImageEffectPropComponents c.components).setString
          kOfxImageEffectPropPreMultiplication c.premult).setDouble
          kOfxImagePropPixelAspect 0 c.pixelAspect) := by
  rw [ImageBase.fromClip, ImageBase.getClipBits, readStringProp_pixelDepth,
    exceptBindOk, readStringProp_components, exceptBindOk,
    readStringProp_premult, exceptBindOk, readDoubleProp_pixelAspect,
    exceptBindOk]

set_option maxHeartbeats 1600000 in
/-- C5: every image built from a clip instance snapshots, through the clip
bag's get-hook, the clip's pixel depth, components, premultiplication and
pixel aspect ratio at construction; the geometry constructor additionally
stores the render scale, bounds, region of definition, row bytes, the field
argument under both the image-field key and the clip-field-order key, and
the unique identifier. -/
theorem image_construction_snapshots (c : ClipInstance) (rsx rsy : ℚ)
    (bounds rod : RectI) (rowBytes : Int) (field uid : String) :
    (∃ img, ImageBase.fromClip c = .ok img
      ∧ img.getString kOfxImageEffectPropPixelDepth 0 = c.pixelDepth
      ∧ img.getString kOfxImageEffectPropComponents 0 = c.components
      ∧ img.getString kOfxImageEffectPropPreMultiplication 0 = c.premult
      ∧ img.getDouble kOfxImagePropPixelAspect 0 = c.pixelAspect)
    ∧ (∃ img,
      ImageBase.fromClipGeom c rsx rsy bounds rod rowBytes field uid = .ok img
      ∧ img.getString kOfxImageEffectPropPixelDepth 0 = c.pixelDepth
      ∧ img.getString kOfxImageEffectPropComponents 0 = c.components
      ∧ img.getString kOfxImageEffectPropPreMultiplication 0 = c.premult
      ∧ img.getDouble kOfxImagePropPixelAspect 0 = c.pixelAspect
      ∧ img.getDouble kOfxImageEffectPropRenderScale 0 = rsx
      ∧ img.getDouble kOfxImageEffectPropRenderScale 1 = rsy
      ∧ img.getInt kOfxImagePropBounds 0 = bounds.x1
      ∧ img.getInt kOfxImagePropBounds 1 = bounds.y1
      ∧ img.getInt kOfxImagePropBounds 2 = bounds.x2
      ∧ img.getInt kOfxImagePropBounds 3 = bounds.y2
      ∧ img.getInt kOfxImagePropRegionOfDefinition 0 = rod.x1
      ∧ img.getInt kOfxImagePropRegionOfDefinition 1 = rod.y1
      ∧ img.getInt kOfxImagePropRegionOfDefinition 2 = rod.x2
      ∧ img.getInt kOfxImagePropRegionOfDefinition 3 = rod.y2
      ∧ img.getInt kOfxImagePropRowBytes 0 = rowBytes
      ∧ img.getString kOfxImagePropField 0 = field
      ∧ img.getString kOfxImageClipPropFieldOrder 0 = field
      ∧ img.getString kOfxImagePropUniqueIdentifier 0 = uid) := by
  have hclip : ImageBase.fromClip c = .ok
      ⟨[ (kOfxPropType, ⟨.eString, 1, false, [.s kOfxTypeImage]⟩),
         (kOfxImageEffectPropPixelDepth, ⟨.eString, 1, true, [.s c.pixelDepth]⟩),
         (kOfxImageEffectPropComponents, ⟨.eString, 1, true, [.s c.components]⟩),
         (kOfxImageEffectPropPreMultiplication,
           ⟨.eString, 1, true, [.s c.premult]⟩),
         (kOfxImageEffectPropRenderScale, ⟨.eDouble, 2, true, [.d 1, .d 1]⟩),
         (kOfxImagePropPixelAspect, ⟨.eDouble, 1, true, [.d c.pixelAspect]⟩),
         (kOfxImagePropBounds, ⟨.eInt, 4, true, [.i 0, .i 0, .i 0, .i 0]⟩),
         (kOfxImagePropRegionOfDefinition,
           ⟨.eInt, 4, true, [.i 0, .i 0, .i 0, .i 0]⟩),
         (kOfxImagePropRowBytes, ⟨.eInt, 1, true, [.i 0]⟩),
         (kOfxImagePropField, ⟨.eString, 1, true, [.s ""]⟩),
         (kOfxImagePropUniqueIdentifier, ⟨.eString, 1, true, [.s ""]⟩) ]⟩ := by
    rw [fromClip_eq]
    simp [PropSet.setString, PropSet.setDouble, PropSet.setValue,
      setValueEntries, writeAt, PropSet.ofSpecs, PropEntry.ofSpec,
      PropType.zero, imageBaseStuffs, kOfxPropType,
      kOfxImageEffectPropPixelDepth, kOfxImageEffectPropComponents,
      kOfxImageEffectPropPreMultiplication, kOfxImageEffectPropRenderScale,
      kOfxImagePropPixelAspect, kOfxImagePropBounds,
      kOfxImagePropRegionOfDefinition, kOfxImagePropRowBytes,
      kOfxImagePropField, kOfxImagePropUniqueIdentifier, kOfxTypeImage,
      kOfxBitDepthNone, kOfxImageComponentNone, kOfxImageOpaqueStr]
  have hgeom : ImageBase.fromClipGeom c rsx rsy bounds rod rowBytes field uid
      = .ok
      ⟨[ (kOfxPropType, ⟨.eString, 1, false, [.s kOfxTypeImage]⟩),
         (kOfxImageEffectPropPixelDepth, ⟨.eString, 1, true, [.s c.pixelDepth]⟩),
         (kOfxImageEffectPropComponents, ⟨.eString, 1, true, [.s c.components]⟩),
         (kOfxImageEffectPropPreMultiplication,
           ⟨.eString, 1, true, [.s c.premult]⟩),
         (kOfxImageEffectPropRenderScale, ⟨.eDouble, 2, true, [.d rsx, .d rsy]⟩),
         (kOfxImagePropPixelAspect, ⟨.eDouble, 1, true, [.d c.pixelAspect]⟩),
         (kOfxImagePropBounds,
           ⟨.eInt, 4, true,
             [.i bounds.x1, .i bounds.y1, .i bounds.x2, .i bounds.y2]⟩),
         (kOfxImagePropRegionOfDefinition,
           ⟨.eInt, 4, true, [.i rod.x1, .i rod.y1, .i rod.x2, .i rod.y2]⟩),
         (kOfxImagePropRowBytes, ⟨.eInt, 1, true, [.i rowBytes]⟩),
         (kOfxImagePropField, ⟨.eString, 1, true, [.s field]⟩),
         (kOfxImagePropUniqueIdentifier, ⟨.eString, 1, true, [.s uid]⟩),
         (kOfxImageClipPropFieldOrder, ⟨.eString, 0, false, [.s field]⟩) ]⟩ := by
    rw [ImageBase.fromClipGeom, hclip, exceptBindOk]
    simp [geomWrites, PropSet.setString, PropSet.setDouble, PropSet.setInt,
      PropSet.setValue, setValueEntries, writeAt, PropType.zero,
      kOfxPropType, kOfxImageEffectPropPixelDepth,
      kOfxImageEffectPropComponents, kOfxImageEffectPropPreMultiplication,
      kOfxImageEffectPropRenderScale, kOfxImagePropPixelAspect,
      kOfxImagePropBounds, kOfxImagePropRegionOfDefinition,
      kOfxImagePropRowBytes, kOfxImagePropField,
      kOfxImagePropUniqueIdentifier, kOfxImageClipPropFieldOrder,
      kOfxTypeImage]
  constructor
  · rw [hclip]
    refine ⟨_, rfl, ?_, ?_, ?_, ?_⟩ <;>
      simp [PropSet.getString, PropSet.getDouble, PropSet.getValue,
        PropSet.find, lookupEntry, kOfxPropType,
        kOfxImageEffectPropPixelDepth, kOfxImageEffectPropComponents,
        kOfxImageEffectPropPreMultiplication, kOfxImageEffectPropRenderScale,
        kOfxImagePropPixelAspect, kOfxImagePropBounds,
        kOfxImagePropRegionOfDefinition, kOfxImagePropRowBytes,
        kOfxImagePropField, kOfxImagePropUniqueIdentifier]
  · rw [hgeom]
    refine ⟨_, rfl, ?_, ?_, ?_, ?_, ?_, ?_, ?_, ?_, ?_, ?_, ?_, ?_, ?_, ?_,
        ?_, ?_, ?_, ?_⟩ <;>
      simp [PropSet.getString, PropSet.getDouble, PropSet.getInt,
        PropSet.getValue, PropSet.find, lookupEntry, kOfxPropType,
        kOfxImageEffectPropPixelDepth, kOfxImageEffectPropComponents,
        kOfxImageEffectPropPreMultiplication, kOfxImageEffectPropRenderScale,
        kOfxImagePropPixelAspect, kOfxImagePropBounds,
        kOfxImagePropRegionOfDefinition, kOfxImagePropRowBytes,
        kOfxImagePropField, kOfxImagePropUniqueIdentifier,
        kOfxImageClipPropFieldOrder]

lemma lookupEntry_isSome_iff_mem (k : String) (l : List (String × PropEntry)) :
    (lookupEntry k l).isSome ↔ k ∈ l.map Prod.fst := by
  induction l with
  | nil => simp [lookupEntry]
  | cons e t ih =>
    by_cases hk : e.1 = k
    · simp [lookupEntry, hk]
    · simp only [lookupEntry, if_neg hk, List.map_cons, List.mem_cons, ih]
      exact ⟨Or.inr, fun h => h.elim (fun h1 => absurd h1.symm hk) id⟩

lemma lookupEntry_clone (k : String) (l : List (String × PropEntry)) :
    lookupEntry k
        (l.map (fun e => (e.1, { e.2 with pluginReadOnly := false })))
      = (lookupEntry k l).map (fun e => { e with pluginReadOnly := false }) := by
  induction l with
  | nil => rfl
  | cons e t ih =>
    by_cases hk : e.1 = k
    · simp [lookupEntry, hk]
    · simp [lookupEntry, hk, ih]

lemma keys_clone (ps : PropSet) : (cloneProps ps).keys = ps.keys := by
  rw [cloneProps, PropSet.keys, PropSet.keys]
  induction ps.entries with
  | nil => rfl
  | cons e t ih => simp only [List.map_cons, ih]

lemma lookupEntry_replace_ne (k : String) (sp : PropSpec)
    (l : List (String × PropEntry)) (h : k ≠ sp.name) :
    lookupEntry k
        (l.map (fun e => if e.1 = sp.name then (sp.name, PropEntry.ofSpec sp)
          else e))
      = lookupEntry k l := by
  induction l with
  | nil => rfl
  | cons e t ih =>
    rcases e with ⟨n0, e0⟩
    simp only [List.map_cons]
    by_cases hsp : (n0, e0).1 = sp.name
    · rw [if_pos hsp]
      simp only at hsp
      subst hsp
      rw [lookupEntry, lookupEntry, if_neg (Ne.symm h), if_neg (Ne.symm h), ih]
    · rw [if_neg hsp]
      simp only at hsp
      by_cases hek : n0 = k
      · rw [lookupEntry, lookupEntry, if_pos hek, if_pos hek]
      · rw [lookupEntry, lookupEntry, if_neg hek, if_neg hek, ih]

lemma lookupEntry_append_singleton (k : String)
    (l : List (String × PropEntry)) (p : String × PropEntry)
    (h : ¬ p.1 = k) :
    lookupEntry k (l ++ [p]) = lookupEntry k l := by
  induction l with
  | nil =>
    rcases p with ⟨n0, e0⟩
    simp only [List.nil_append, lookupEntry]
    rw [if_neg h]
  | cons e t ih =>
    rcases e with ⟨n0, e0⟩
    by_cases hek : n0 = k
    · simp only [List.cons_append, lookupEntry, if_pos hek]
    · simp only [List.cons_append, lookupEntry, if_neg hek]
      exact ih

lemma lookupEntry_addProperty_ne (ps : PropSet) (sp : PropSpec) (k : String)
    (h : k ≠ sp.name) :
    lookupEntry k (ps.addProperty sp).entries = lookupEntry k ps.entries := by
  rw [PropSet.addProperty]
  by_cases hsome : (lookupEntry sp.name ps.entries).isSome
  · rw [if_pos hsome]
    exact lookupEntry_replace_ne k sp ps.entries h
  · rw [if_neg hsome]
    exact lookupEntry_append_singleton k ps.entries
      (sp.name, PropEntry.ofSpec sp) (Ne.symm h)

lemma map_fst_replace (sp : PropSpec) (l : List (String × PropEntry)) :
    (l.map (fun e => if e.1 = sp.name then (sp.name, PropEntry.ofSpec sp)
        else e)).map Prod.fst
      = l.map Prod.fst := by
  induction l with
  | nil => rfl
  | cons e t ih =>
    rcases e with ⟨n0, e0⟩
    simp only [List.map_cons]
    by_cases hsp : (n0, e0).1 = sp.name
    · rw [if_pos hsp]
      simp only at hsp
      subst hsp
      rw [ih]
    · rw [if_neg hsp]
      rw [ih]

lemma keys_addProperty (ps : PropSet) (sp : PropSpec) :
    (ps.addProperty sp).keys
      = if (lookupEntry sp.name ps.entries).isSome then ps.keys
        else ps.keys ++ [sp.name] := by
  rw [PropSet.addProperty]
  by_cases hsome : (lookupEntry sp.name ps.entries).isSome
  · rw [if_pos hsome, if_pos hsome]
    exact map_fst_replace sp ps.entries
  · rw [if_neg hsome, if_neg hsome]
    simp [PropSet.keys]

lemma mem_keys_addProperty (ps : PropSet) (sp : PropSpec) (k : String)
    (h : k ∈ ps.keys) : k ∈ (ps.addProperty sp).keys := by
  rw [keys_addProperty]
  by_cases hsome : (lookupEntry sp.name ps.entries).isSome
  · rw [if_pos hsome]; exact h
  · rw [if_neg hsome]; exact List.mem_append_left _ h

lemma name_mem_keys_addProperty (ps : PropSet) (sp : PropSpec) :
    sp.name ∈ (ps.addProperty sp).keys := by
  rw [keys_addProperty]
  by_cases hsome : (lookupEntry sp.name ps.entries).isSome
  · rw [if_pos hsome]
    exact (lookupEntry_isSome_iff_mem sp.name ps.entries).1 hsome
  · rw [if_neg hsome]
    exact List.mem_append_right _ (List.mem_singleton.2 rfl)

lemma mem_keys_addProperties (ps : PropSet) (sps : List PropSpec) (k : String)
    (h : k ∈ ps.keys) : k ∈ (ps.addProperties sps).keys := by
  induction sps generalizing ps with
  | nil => exact h
  | cons hd t ih => exact ih (ps.addProperty hd) (mem_keys_addProperty ps hd k h)

lemma names_mem_addProperties (ps : PropSet) (sps : List PropSpec) :
    ∀ sp ∈ sps, sp.name ∈ (ps.addProperties sps).keys := by
  induction sps generalizing ps with
  | nil => intro sp h; exact absurd h (List.not_mem_nil sp)
  | cons hd t ih =>
    intro sp h
    rcases List.mem_cons.1 h with h1 | h1
    · subst h1
      exact mem_keys_addProperties (ps.addProperty sp) t sp.name
        (name_mem_keys_addProperty ps sp)
    · exact ih (ps.addProperty hd) sp h1

lemma lookupEntry_addProperties_ne (ps : PropSet) (sps : List PropSpec)
    (k : String) (h : ∀ sp ∈ sps, k ≠ sp.name) :
    lookupEntry k (ps.addProperties sps).entries = lookupEntry k ps.entries := by
  induction sps generalizing ps with
  | nil => rfl
  | cons hd t ih =>
    rw [show ps.addProperties (hd :: t) = (ps.addProperty hd).addProperties t
      from rfl]
    rw [ih (ps.addProperty hd) (fun sp hsp => h sp (List.mem_cons_of_mem hd hsp))]
    exact lookupEntry_addProperty_ne ps hd k (h hd (List.mem_cons_self hd t))

/-- C7: for every clip instance cloned from a descriptor whose keys are the
descriptor-schema keys (disjoint from the instance schema), every property
of the descriptor reappears in the instance with its plugin-read-only flag
cleared (so what was plugin-read-only is now plugin-writable), and the
instance's key set is a superset of the descriptor's keys and also contains
every key of the instance schema. -/
theorem descriptor_clone_writable_superset (ps : PropSet)
    (hdisj : ∀ k, k ∈ ps.keys → ∀ sp ∈ clipInstanceStuffs, k ≠ sp.name) :
    (∀ k e, lookupEntry k ps.entries = some e →
      lookupEntry k (instancePropsOfDescriptor ps).entries
        = some { e with pluginReadOnly := false })
    ∧ (∀ k, k ∈ ps.keys → k ∈ (instancePropsOfDescriptor ps).keys)
    ∧ (∀ sp ∈ clipInstanceStuffs,
        sp.name ∈ (instancePropsOfDescriptor ps).keys) := by
  refine ⟨?_, ?_, ?_⟩
  · intro k e h
    have hsome : (lookupEntry k ps.entries).isSome := by rw [h]; rfl
    have hmem : k ∈ ps.keys := (lookupEntry_isSome_iff_mem k ps.entries).1 hsome
    rw [instancePropsOfDescriptor,
      lookupEntry_addProperties_ne (cloneProps ps) clipInstanceStuffs k
        (hdisj k hmem)]
    rw [show (cloneProps ps).entries
        = ps.entries.map (fun e => (e.1, { e.2 with pluginReadOnly := false }))
      from rfl]
    rw [lookupEntry_clone, h]
    rfl
  · intro k hk
    rw [instancePropsOfDescriptor]
    exact mem_keys_addProperties (cloneProps ps) clipInstanceStuffs k
      ((keys_clone ps).symm ▸ hk)
  · intro sp hsp
    exact names_mem_addProperties (cloneProps ps) clipInstanceStuffs sp hsp

/-- C7 witness: the clone facts applied at the concrete descriptor named
"Source": its plugin-read-only type property is plugin-writable in the
instance bag, and a key of the instance schema is present. -/
theorem descriptor_clone_writable_superset_witness :
    lookupEntry kOfxPropType
        (instancePropsOfDescriptor (mkClipDescriptor "Source")).entries
      = some ⟨.eString, 1, false, [.s kOfxTypeClip]⟩
    ∧ kOfxImageEffectPropPixelDepth
        ∈ (instancePropsOfDescriptor (mkClipDescriptor "Source")).keys := by
  constructor
  · exact (descriptor_clone_writable_superset (mkClipDescriptor "Source")
      (by decide)).1 kOfxPropType ⟨.eString, 1, true, [.s kOfxTypeClip]⟩
      (by decide)
  · exact (descriptor_clone_writable_superset (mkClipDescriptor "Source")
      (by decide)).2.2 ⟨kOfxImageEffectPropPixelDepth, .eString, 1, true,
        .s kOfxBitDepthNone⟩ (by decide)

end OfxClip
